import Mathlib

/-!
# Verification of the availability computation in `src/app.py`

This file gives a shallow embedding of `get_available_slots` (src/app.py,
lines 158-220) of the booking-marketplace repository, together with the data
model it uses, and proves or refutes the frozen claims about it.

Modelling conventions:

* Absolute (zone-aware) instants are integers: minutes since an arbitrary
  epoch.  A civil date is an opaque integer ordinal.
* A pytz timezone object is reduced to the one operation the function uses:
  `localize(datetime.combine(date, time(hour, 0)))` followed by
  `astimezone(pytz.UTC)`, i.e. a map from a local wall-clock hour on a given
  date to the absolute instant it denotes.  The pytz timezone database
  (`pytz.timezone`) is a partial map from zone identifiers to such objects
  and is a parameter of the embedding; an absent entry models the
  `pytz.exceptions.UnknownTimeZoneError` raised on line 159.
* `datetime.datetime.fromisoformat` (lines 197-198) combined with the
  naive-timestamp handling of lines 201-204 (a naive result is localized to
  UTC) is abstracted as a parameter `fromiso : String → Option Int`:
  `none` models the `ValueError` the stdlib parser raises on a malformed
  timestamp, `some t` the absolute instant of the parsed aware datetime.
  The literal `.replace('Z', '+00:00')` preprocessing of lines 195-196 is
  kept concrete (`pyReplaceZ`).
* The Google-calendar fetch of lines 167-176 is network I/O against an
  external service; its outcome is passed in as an `Except String (List
  Event)` input: `Except.error msg` models the `except Exception` branch
  (any raised exception, e.g. an authentication failure), `Except.ok evs`
  the `items` list of the response.
* The UTC day window of lines 160-165 is computed only to be passed to that
  external fetch (`timeMin` / `timeMax`); since the fetch outcome is an
  input here, the window does not appear in the embedding.
-/

/-- A local wall-clock instant `datetime.combine(date, time(hour, 0))`
localized to the partner zone: the civil date (opaque ordinal) and the hour.
This is what `slot_start_local.isoformat()` on line 216 serializes. -/
structure LocalDT where
  date : Int
  hour : Nat
  deriving DecidableEq, Repr

/-- The `Partner` dataclass of src/app.py lines 21-29. -/
structure Partner where
  id : Int
  name : String
  email : String
  description : String
  rating : Float
  calendar_type : String
  token_path : String

/-- The `TimeSlot` dataclass of src/app.py lines 31-35.  `start` holds the
local slot start (serialized with `isoformat()` in the code), `display` the
`strftime('%I:%M %p')` rendering, `partner_id` the id of the partner. -/
structure TimeSlot where
  start : LocalDT
  display : String
  partner_id : Int
  deriving DecidableEq, Repr

/-- The `start` / `end` sub-object of a Google calendar event: a dict that
may or may not carry a `dateTime` key (all-day events carry `date` only). -/
structure EventTimeField where
  dateTime : Option String
  deriving DecidableEq, Repr

/-- A calendar event as consumed by lines 191-212: its `start` and `end`
fields.  (Events returned by the API always carry both fields; only the
`dateTime` key inside them is optional.) -/
structure Event where
  start : EventTimeField
  «end» : EventTimeField
  deriving DecidableEq, Repr

/-- A pytz timezone object, reduced to the operation used by
`get_available_slots`: `localize date hour` is the absolute instant
(minutes since epoch) denoted by local wall-clock `hour:00` on `date`,
i.e. `local_tz.localize(datetime.combine(date, time(hour, 0)))
.astimezone(pytz.UTC)`.  Adding `timedelta(hours=1)` to the localized
datetime and converting to UTC (lines 184, 188) yields `localize date hour
+ 60`, because datetime arithmetic keeps the attached fixed offset. -/
structure PytzTimezone where
  localize : Int → Nat → Int

/-- The exception that can escape `get_available_slots`:
`pytz.exceptions.UnknownTimeZoneError` raised by `pytz.timezone` on
line 159, which sits outside the `try` block. -/
inductive PyException where
  | unknownTimeZoneError (zone : String)
  deriving DecidableEq, Repr

/-- `s.replace('Z', '+00:00')` from lines 195-196.  Python's `str.replace`
substitutes every occurrence of the pattern; since the pattern here is the
single character `Z`, that is exactly a per-character substitution. -/
def pyReplaceZ (s : String) : String :=
  ⟨s.data.foldr
    (fun c acc => if c = 'Z' then "+00:00".data ++ acc else c :: acc) []⟩

/-- The busy interval an event contributes, following lines 191-212:
`none` when the event's `start` has no `dateTime` key (line 192, explicit
`continue`), when its `end` has no `dateTime` key (a `KeyError` on line 196
caught by the `except` on line 210), or when either timestamp fails to
parse (a `ValueError` from `fromisoformat`, same `except`); otherwise the
pair of parsed absolute instants. -/
def eventBusyInterval (fromiso : String → Option Int) (e : Event) :
    Option (Int × Int) :=
  match e.start.dateTime with
  | none => none
  | some s =>
    match e.«end».dateTime with
    | none => none
    | some t =>
      match fromiso (pyReplaceZ s), fromiso (pyReplaceZ t) with
      | some a, some b => some (a, b)
      | _, _ => none

/-- The inner loop of lines 190-212: the slot `[slotStartUtc, slotEndUtc)`
is booked iff some event yields a busy interval `[bs, be)` with
`slotStartUtc < be and slotEndUtc > bs` (line 207); events contributing no
busy interval are skipped.  The `break` on line 209 makes the loop an
existential scan, i.e. `List.any`. -/
def is_booked (fromiso : String → Option Int) (slotStartUtc slotEndUtc : Int)
    (events : List Event) : Bool :=
  events.any fun e =>
    match eventBusyInterval fromiso e with
    | none => false
    | some (bs, be) => decide (slotStartUtc < be ∧ slotEndUtc > bs)

/-- `strftime('%I:%M %p')` of line 217 for a whole hour: 12-hour clock,
zero-padded, minutes 00, AM/PM marker. -/
def strftime_display (h : Nat) : String :=
  let h12 := if h % 12 == 0 then 12 else h % 12
  (if h12 < 10 then "0" else "") ++ toString h12 ++ ":00 "
    ++ (if h < 12 then "AM" else "PM")

/-- The `TimeSlot` appended on lines 215-219 for the slot starting at local
`hour:00` on `date`. -/
def mkTimeSlot (partner : Partner) (date : Int) (hour : Nat) : TimeSlot :=
  { start := ⟨date, hour⟩
    display := strftime_display hour
    partner_id := partner.id }

/-- `get_available_slots` (src/app.py lines 158-220).

* Line 159: `pytz.timezone(local_tz_str)` — an unknown zone raises
  `UnknownTimeZoneError`, modelled by the `tzdb` lookup returning `none`.
* Lines 167-179: the calendar fetch; any exception is caught, logged and
  turned into `return []` (modelled by `fetched = Except.error _ → .ok []`).
* Lines 181-220: for each hour in `range(9, 17)` the slot
  `[localize date hour, localize date hour + 60)` is kept iff no fetched
  event marks it booked, and rendered as a `TimeSlot`. -/
def get_available_slots (tzdb : String → Option PytzTimezone)
    (fromiso : String → Option Int) (partner : Partner) (date : Int)
    (local_tz_str : String) (fetched : Except String (List Event)) :
    Except PyException (List TimeSlot) :=
  match tzdb local_tz_str with
  | none => .error (.unknownTimeZoneError local_tz_str)
  | some local_tz =>
    match fetched with
    | .error _ => .ok []
    | .ok events =>
      .ok (((List.range' 9 8).filter fun hour =>
              !(is_booked fromiso (local_tz.localize date hour)
                  (local_tz.localize date hour + 60) events)).map
            (mkTimeSlot partner date))

/-! ## Concrete fixtures used by the witness theorems -/

/-- A fixed-offset timezone: local hour `h` denotes absolute minute `60*h`
on every date (e.g. UTC itself on the epoch day). -/
def tzFixed : PytzTimezone := ⟨fun _ h => 60 * h⟩

/-- A timezone database resolving every identifier to `tzFixed`. -/
def tzdbEx : String → Option PytzTimezone := fun _ => some tzFixed

/-- A timezone database knowing no identifier at all. -/
def tzdbEmpty : String → Option PytzTimezone := fun _ => none

/-- A concrete `fromisoformat` fragment: parses exactly the two timestamps
used by the example events below, as UTC instants in minutes. -/
def fromisoEx : String → Option Int := fun s =>
  if s = "1970-01-01T13:00:00+00:00" then some 780
  else if s = "1970-01-01T14:00:00+00:00" then some 840
  else none

/-- A concrete partner record, shaped like the sample rows of `init_db`. -/
def examplePartner : Partner :=
  ⟨1, "Sample Plumbing", "partner@example.com", "Fast and reliable plumbing",
    4.8, "google", "token_1.json"⟩

/-- A second partner sharing `examplePartner`'s id but no other field. -/
def examplePartner2 : Partner :=
  ⟨1, "Sample Electric", "other@example.com", "Same-day service",
    4.9, "google", "token_9.json"⟩

/-- A concrete event busy from 13:00 to 14:00 UTC on the epoch day; its end
timestamp uses the `Z` suffix that line 196 rewrites to `+00:00`. -/
def eventEx : Event :=
  ⟨⟨some "1970-01-01T13:00:00+00:00"⟩, ⟨some "1970-01-01T14:00:00Z"⟩⟩

/-- A concrete all-day event: its `start` carries no `dateTime` key. -/
def allDayEventEx : Event := ⟨⟨none⟩, ⟨none⟩⟩

/-- A concrete event whose start timestamp does not parse. -/
def badEventEx : Event :=
  ⟨⟨some "not-a-timestamp"⟩, ⟨some "1970-01-01T14:00:00Z"⟩⟩

/-! ## Shared lemmas -/

/-- An event contributing no busy interval is transparent to `is_booked`. -/
theorem is_booked_skip (fromiso : String → Option Int) (a b : Int) (e : Event)
    (he : eventBusyInterval fromiso e = none) (l1 l2 : List Event) :
    is_booked fromiso a b (l1 ++ e :: l2) = is_booked fromiso a b (l1 ++ l2) := by
  simp [is_booked, he]

/-- An event contributing no busy interval is transparent to the whole
availability computation. -/
theorem get_available_slots_skip (tzdb : String → Option PytzTimezone)
    (fromiso : String → Option Int) (partner : Partner) (date : Int)
    (s : String) (e : Event) (he : eventBusyInterval fromiso e = none)
    (l1 l2 : List Event) :
    get_available_slots tzdb fromiso partner date s (.ok (l1 ++ e :: l2)) =
      get_available_slots tzdb fromiso partner date s (.ok (l1 ++ l2)) := by
  unfold get_available_slots
  cases tzdb s with
  | none => rfl
  | some tz =>
    show Except.ok (((List.range' 9 8).filter fun hour =>
          !(is_booked fromiso (tz.localize date hour)
              (tz.localize date hour + 60) (l1 ++ e :: l2))).map
        (mkTimeSlot partner date)) = _
    have hpt : ∀ hour ∈ List.range' 9 8,
        (!(is_booked fromiso (tz.localize date hour)
            (tz.localize date hour + 60) (l1 ++ e :: l2))) =
          (!(is_booked fromiso (tz.localize date hour)
              (tz.localize date hour + 60) (l1 ++ l2))) := by
      intro hour _
      rw [is_booked_skip fromiso _ _ e he l1 l2]
    rw [List.filter_congr hpt]

/-! ## Claims -/

/-- C1: the spec requires a Calendar Source failure to propagate out of the
availability computation, never to come back as an empty slot list.  The
code does the opposite: the `except Exception` branch on lines 177-179
catches every fetch failure (authentication errors included), logs it and
returns `[]`.  This theorem evaluates the code at a failing fetch: for every
resolvable timezone and every raised exception the result is `ok []`, which
contradicts the claim — a code bug, since the spec (§7, §9) explicitly
flags this swallowing as the defect. -/
theorem spec_C1_fetch_error_swallowed (tzdb : String → Option PytzTimezone)
    (fromiso : String → Option Int) (partner : Partner) (date : Int)
    (s : String) (tz : PytzTimezone) (htz : tzdb s = some tz) (msg : String) :
    get_available_slots tzdb fromiso partner date s (.error msg) = .ok [] := by
  simp [get_available_slots, htz]

/-- Witness for C1 at a concrete failing fetch (`AuthenticationError`). -/
theorem spec_C1_witness :
    get_available_slots tzdbEx fromisoEx examplePartner 0 "America/New_York"
      (.error "AuthenticationError") = .ok [] :=
  spec_C1_fetch_error_swallowed tzdbEx fromisoEx examplePartner 0
    "America/New_York" tzFixed rfl "AuthenticationError"

/-- C5: with an empty busy-interval list the computation returns all 8
hourly candidate slots, local start times 09:00 through 16:00
(`List.range' 9 8 = [9, 10, 11, 12, 13, 14, 15, 16]`), in ascending
start-time order. -/
theorem spec_C5_empty_busy_all_slots (tzdb : String → Option PytzTimezone)
    (fromiso : String → Option Int) (partner : Partner) (date : Int)
    (s : String) (tz : PytzTimezone) (htz : tzdb s = some tz) :
    get_available_slots tzdb fromiso partner date s (.ok []) =
      .ok ((List.range' 9 8).map (mkTimeSlot partner date)) := by
  simp [get_available_slots, htz, is_booked]

/-- Witness for C5 at a concrete input: the result is literally the 8 slots
09:00 … 16:00 in ascending order. -/
theorem spec_C5_witness :
    get_available_slots tzdbEx fromisoEx examplePartner 0 "America/New_York"
      (.ok []) = .ok ((List.range' 9 8).map (mkTimeSlot examplePartner 0)) :=
  spec_C5_empty_busy_all_slots tzdbEx fromisoEx examplePartner 0
    "America/New_York" tzFixed rfl

/-- C7: the availability computation is a pure, deterministic function of
its declared inputs plus the timezone database.  In the embedding this is
witnessed by `get_available_slots` being a total function (identical
inputs trivially give identical outputs), and sharpened to: of the partner
record only the `id` field can influence the result — two calls with
partners agreeing on `id`, and otherwise identical inputs and identical
fetched events, yield identical outputs. -/
theorem spec_C7_pure_function (tzdb : String → Option PytzTimezone)
    (fromiso : String → Option Int) (p p' : Partner) (hid : p.id = p'.id)
    (date : Int) (s : String) (fetched : Except String (List Event)) :
    get_available_slots tzdb fromiso p date s fetched =
      get_available_slots tzdb fromiso p' date s fetched := by
  unfold get_available_slots
  cases tzdb s with
  | none => rfl
  | some tz =>
    cases fetched with
    | error msg => rfl
    | ok events => simp [mkTimeSlot, hid]

/-- Witness for C7: two concrete partner records sharing only their id. -/
theorem spec_C7_witness :
    get_available_slots tzdbEx fromisoEx examplePartner 0 "America/New_York"
        (.ok [eventEx]) =
      get_available_slots tzdbEx fromisoEx examplePartner2 0 "America/New_York"
        (.ok [eventEx]) :=
  spec_C7_pure_function tzdbEx fromisoEx examplePartner examplePartner2 rfl 0
    "America/New_York" (.ok [eventEx])

/-- C8: an unresolvable timezone identifier makes the call fail — line 159
sits outside the `try`, so the `UnknownTimeZoneError` raised by
`pytz.timezone` (the code-level realization of the spec's
`ConfigurationError` for a bad zone) propagates, and no slot list is
returned. -/
theorem spec_C8_unknown_timezone (tzdb : String → Option PytzTimezone)
    (fromiso : String → Option Int) (partner : Partner) (date : Int)
    (s : String) (htz : tzdb s = none) (fetched : Except String (List Event)) :
    get_available_slots tzdb fromiso partner date s fetched =
      .error (.unknownTimeZoneError s) := by
  simp [get_available_slots, htz]

/-- Witness for C8 at a concrete unknown zone. -/
theorem spec_C8_witness :
    get_available_slots tzdbEmpty fromisoEx examplePartner 0 "Mars/Olympus"
      (.ok []) = .error (.unknownTimeZoneError "Mars/Olympus") :=
  spec_C8_unknown_timezone tzdbEmpty fromisoEx examplePartner 0 "Mars/Olympus"
    rfl (.ok [])

/-- C9: an event whose `start` carries no `dateTime` key (an all-day event)
is skipped by the `continue` on line 193: removing it from the fetched list
leaves the result unchanged, so it never marks any slot booked, whatever
day it covers. -/
theorem spec_C9_allday_ignored (tzdb : String → Option PytzTimezone)
    (fromiso : String → Option Int) (partner : Partner) (date : Int)
    (s : String) (e : Event) (hAllDay : e.start.dateTime = none)
    (l1 l2 : List Event) :
    get_available_slots tzdb fromiso partner date s (.ok (l1 ++ e :: l2)) =
      get_available_slots tzdb fromiso partner date s (.ok (l1 ++ l2)) :=
  get_available_slots_skip tzdb fromiso partner date s e
    (by simp [eventBusyInterval, hAllDay]) l1 l2

/-- Witness for C9: a concrete all-day event inserted between two parseable
events changes nothing. -/
theorem spec_C9_witness :
    get_available_slots tzdbEx fromisoEx examplePartner 0 "America/New_York"
        (.ok ([eventEx] ++ allDayEventEx :: [eventEx])) =
      get_available_slots tzdbEx fromisoEx examplePartner 0 "America/New_York"
        (.ok ([eventEx] ++ [eventEx])) :=
  spec_C9_allday_ignored tzdbEx fromisoEx examplePartner 0 "America/New_York"
    allDayEventEx rfl [eventEx] [eventEx]

/-- C10: an event whose start or end timestamp fails to parse is skipped by
the `except` on lines 210-212: removing it from the fetched list leaves the
result unchanged, so it never marks a slot booked, the call is not aborted,
and the remaining events still filter the slots. -/
theorem spec_C10_parse_failure_skipped (tzdb : String → Option PytzTimezone)
    (fromiso : String → Option Int) (partner : Partner) (date : Int)
    (s : String) (e : Event) (ss ts : String)
    (hs : e.start.dateTime = some ss) (ht : e.«end».dateTime = some ts)
    (hfail : fromiso (pyReplaceZ ss) = none ∨ fromiso (pyReplaceZ ts) = none)
    (l1 l2 : List Event) :
    get_available_slots tzdb fromiso partner date s (.ok (l1 ++ e :: l2)) =
      get_available_slots tzdb fromiso partner date s (.ok (l1 ++ l2)) := by
  refine get_available_slots_skip tzdb fromiso partner date s e ?_ l1 l2
  unfold eventBusyInterval
  rw [hs, ht]
  rcases hfail with h | h
  · cases h2 : fromiso (pyReplaceZ ts) <;> simp [h, h2]
  · cases h1 : fromiso (pyReplaceZ ss) <;> simp [h, h1]

/-- Witness for C10: a concrete event with an unparseable start timestamp
inserted next to a parseable event changes nothing. -/
theorem spec_C10_witness :
    get_available_slots tzdbEx fromisoEx examplePartner 0 "America/New_York"
        (.ok ([] ++ badEventEx :: [eventEx])) =
      get_available_slots tzdbEx fromisoEx examplePartner 0 "America/New_York"
        (.ok ([] ++ [eventEx])) :=
  spec_C10_parse_failure_skipped tzdbEx fromisoEx examplePartner 0
    "America/New_York" badEventEx "not-a-timestamp" "1970-01-01T14:00:00Z"
    rfl rfl (Or.inl rfl) [] [eventEx]

/-- C2: every returned slot is disjoint from every busy interval the fetched
events contribute — for a slot starting at local hour `t.start.hour`, whose
absolute extent is `[tz.localize date t.start.hour, tz.localize date
t.start.hour + 60)`, no busy interval `[bs, be)` passes the half-open
overlap test `S.start < B.end AND S.end > B.start` of line 207. -/
theorem spec_C2_no_overlap (tzdb : String → Option PytzTimezone)
    (fromiso : String → Option Int) (partner : Partner) (date : Int)
    (s : String) (tz : PytzTimezone) (htz : tzdb s = some tz)
    (evs : List Event) (slots : List TimeSlot)
    (hres : get_available_slots tzdb fromiso partner date s (.ok evs) = .ok slots)
    (t : TimeSlot) (ht : t ∈ slots) (e : Event) (he : e ∈ evs) (bs be : Int)
    (hB : eventBusyInterval fromiso e = some (bs, be)) :
    ¬(tz.localize date t.start.hour < be ∧
        tz.localize date t.start.hour + 60 > bs) := by
  unfold get_available_slots at hres
  rw [htz] at hres
  have hslots : slots = ((List.range' 9 8).filter fun hour =>
      !(is_booked fromiso (tz.localize date hour)
          (tz.localize date hour + 60) evs)).map (mkTimeSlot partner date) :=
    (Except.ok.inj hres).symm
  subst hslots
  rcases List.mem_map.1 ht with ⟨h0, hmem, hmk⟩
  have hfree := (List.mem_filter.1 hmem).2
  have hfalse : is_booked fromiso (tz.localize date h0)
      (tz.localize date h0 + 60) evs = false := by
    simpa using hfree
  have hh : t.start.hour = h0 := by rw [← hmk]; rfl
  rw [hh]
  intro hcon
  have htrue : is_booked fromiso (tz.localize date h0)
      (tz.localize date h0 + 60) evs = true := by
    unfold is_booked
    refine List.any_eq_true.2 ⟨e, he, ?_⟩
    rw [hB]
    simpa using hcon
  rw [htrue] at hfalse
  exact Bool.noConfusion hfalse

/-- Witness for C2: the 09:00 slot returned alongside the concrete busy
interval `[780, 840)` (13:00-14:00 UTC) does not overlap it. -/
theorem spec_C2_witness :
    ¬(tzFixed.localize 0 (mkTimeSlot examplePartner 0 9).start.hour < 840 ∧
        tzFixed.localize 0 (mkTimeSlot examplePartner 0 9).start.hour + 60 > 780) :=
  spec_C2_no_overlap tzdbEx fromisoEx examplePartner 0 "America/New_York"
    tzFixed rfl [eventEx]
    ([9, 10, 11, 12, 14, 15, 16].map (mkTimeSlot examplePartner 0)) rfl
    (mkTimeSlot examplePartner 0 9) (List.mem_map.2 ⟨9, by simp, rfl⟩)
    eventEx (List.mem_singleton.2 rfl) 780 840 rfl

/-- C6: whenever the call returns a slot list, that list is strictly
ascending in slot start time (the local start hours strictly increase) and
every slot carries the id of the partner passed in. -/
theorem spec_C6_sorted_and_tagged (tzdb : String → Option PytzTimezone)
    (fromiso : String → Option Int) (partner : Partner) (date : Int)
    (s : String) (fetched : Except String (List Event)) (slots : List TimeSlot)
    (hres : get_available_slots tzdb fromiso partner date s fetched = .ok slots) :
    List.Pairwise (fun a b : TimeSlot => a.start.hour < b.start.hour) slots ∧
      ∀ t ∈ slots, t.partner_id = partner.id := by
  unfold get_available_slots at hres
  cases htz : tzdb s with
  | none =>
    rw [htz] at hres
    exact absurd hres (by simp)
  | some tz =>
    rw [htz] at hres
    cases fetched with
    | error msg =>
      have hnil : slots = [] := (Except.ok.inj hres).symm
      subst hnil
      exact ⟨List.Pairwise.nil, by simp⟩
    | ok evs =>
      have hslots : slots = ((List.range' 9 8).filter fun hour =>
          !(is_booked fromiso (tz.localize date hour)
              (tz.localize date hour + 60) evs)).map (mkTimeSlot partner date) :=
        (Except.ok.inj hres).symm
      subst hslots
      constructor
      · refine List.pairwise_map.2 ?_
        have hfil : List.Pairwise (· < ·) ((List.range' 9 8).filter fun hour =>
            !(is_booked fromiso (tz.localize date hour)
                (tz.localize date hour + 60) evs)) :=
          List.Pairwise.sublist (List.filter_sublist _)
            (List.pairwise_lt_range' 9 8)
        exact hfil
      · intro t ht
        rcases List.mem_map.1 ht with ⟨h0, _, hmk⟩
        rw [← hmk]
        rfl

/-- Witness for C6 at a concrete input: the list returned around the busy
interval `[780, 840)` is strictly ascending and tagged with partner id 1. -/
theorem spec_C6_witness :
    List.Pairwise (fun a b : TimeSlot => a.start.hour < b.start.hour)
        ([9, 10, 11, 12, 14, 15, 16].map (mkTimeSlot examplePartner 0)) ∧
      ∀ t ∈ [9, 10, 11, 12, 14, 15, 16].map (mkTimeSlot examplePartner 0),
        t.partner_id = examplePartner.id :=
  spec_C6_sorted_and_tagged tzdbEx fromisoEx examplePartner 0
    "America/New_York" (.ok [eventEx])
    ([9, 10, 11, 12, 14, 15, 16].map (mkTimeSlot examplePartner 0)) rfl

/-- From hour-to-hour gaps of at least the slot length, the localization of
consecutive local hours is monotone.  Real IANA zones satisfy the gap
hypothesis on the business window (consecutive local full hours are at
least 60 absolute minutes apart except across a spring-forward transition,
which real zones schedule outside 09:00-17:00). -/
theorem localize_mono_of_gap (tz : PytzTimezone) (date : Int)
    (hGap : ∀ h : Nat, tz.localize date h + 60 ≤ tz.localize date (h + 1)) :
    ∀ a b : Nat, a ≤ b → tz.localize date a ≤ tz.localize date b := by
  intro a b hab
  induction b, hab using Nat.le_induction with
  | base => exact le_refl _
  | succ n hn ih =>
    have h1 := hGap n
    omega

/-- C4: a busy interval covering the whole business day — starting no later
than the first candidate's start `localize date 9` and ending no earlier
than the last candidate's end `localize date 16 + 60` — removes every
candidate, so the call returns the empty list.  `hMono` states that
localizing later local hours gives later absolute instants, which holds for
IANA zones on a civil day. -/
theorem spec_C4_day_spanning_empty (tzdb : String → Option PytzTimezone)
    (fromiso : String → Option Int) (partner : Partner) (date : Int)
    (s : String) (tz : PytzTimezone) (htz : tzdb s = some tz)
    (hMono : ∀ a b : Nat, a ≤ b → tz.localize date a ≤ tz.localize date b)
    (evs : List Event) (e : Event) (he : e ∈ evs) (bs be : Int)
    (hB : eventBusyInterval fromiso e = some (bs, be))
    (h1 : bs ≤ tz.localize date 9) (h2 : tz.localize date 16 + 60 ≤ be) :
    get_available_slots tzdb fromiso partner date s (.ok evs) = .ok [] := by
  unfold get_available_slots
  rw [htz]
  show Except.ok _ = _
  have hfil : ((List.range' 9 8).filter fun hour =>
      !(is_booked fromiso (tz.localize date hour)
          (tz.localize date hour + 60) evs)) = [] := by
    rw [List.filter_eq_nil_iff]
    intro h hm
    have hrange : 9 ≤ h ∧ h < 17 := by simpa using List.mem_range'_1.1 hm
    have htrue : is_booked fromiso (tz.localize date h)
        (tz.localize date h + 60) evs = true := by
      unfold is_booked
      refine List.any_eq_true.2 ⟨e, he, ?_⟩
      rw [hB]
      refine decide_eq_true ⟨?_, ?_⟩
      · have hle : tz.localize date h ≤ tz.localize date 16 :=
          hMono h 16 (by omega)
        omega
      · have hle : tz.localize date 9 ≤ tz.localize date h :=
          hMono 9 h (by omega)
        omega
    simp [htrue]
  rw [hfil]
  rfl

/-- A `fromisoformat` fragment for the day-spanning busy event below. -/
def fromisoDayEx : String → Option Int := fun s =>
  if s = "1970-01-01T00:00:00+00:00" then some 0
  else if s = "1970-01-02T00:00:00+00:00" then some 1440
  else none

/-- A concrete event busy for the whole epoch day (00:00 to next midnight
UTC). -/
def dayEventEx : Event :=
  ⟨⟨some "1970-01-01T00:00:00+00:00"⟩, ⟨some "1970-01-02T00:00:00Z"⟩⟩

/-- Witness for C4: a concrete busy interval `[0, 1440)` covering the whole
epoch day yields the empty slot list. -/
theorem spec_C4_witness :
    get_available_slots tzdbEx fromisoDayEx examplePartner 0
      "America/New_York" (.ok [dayEventEx]) = .ok [] :=
  spec_C4_day_spanning_empty tzdbEx fromisoDayEx examplePartner 0
    "America/New_York" tzFixed rfl
    (fun a b hab => by simp only [tzFixed]; omega)
    [dayEventEx] dayEventEx (List.mem_singleton.2 rfl) 0 1440 rfl
    (by simp [tzFixed]) (by simp [tzFixed])

/-- C3: boundary behaviour of the overlap filter, for a candidate hour
`h0` in the business window.  First conjunct: a busy interval exactly equal
to the candidate slot `[localize date h0, localize date h0 + 60)` removes
exactly that slot — the result is every other candidate, in order.  Second
conjunct: a busy interval ending exactly at the slot's start does not
remove the slot.  Third conjunct: a busy interval starting exactly at the
slot's end does not remove the slot.  `hGap` states that consecutive local
full hours localize at least 60 absolute minutes apart, which holds for
IANA zones on the business window. -/
theorem spec_C3_boundary (tzdb : String → Option PytzTimezone)
    (fromiso : String → Option Int) (partner : Partner) (date : Int)
    (s : String) (tz : PytzTimezone) (htz : tzdb s = some tz)
    (hGap : ∀ h : Nat, tz.localize date h + 60 ≤ tz.localize date (h + 1))
    (e : Event) (h0 : Nat) (h09 : 9 ≤ h0) (h016 : h0 ≤ 16) :
    (eventBusyInterval fromiso e =
        some (tz.localize date h0, tz.localize date h0 + 60) →
      get_available_slots tzdb fromiso partner date s (.ok [e]) =
        .ok (((List.range' 9 8).filter fun h => h != h0).map
          (mkTimeSlot partner date))) ∧
    (∀ bs : Int, eventBusyInterval fromiso e = some (bs, tz.localize date h0) →
      ∃ slots, get_available_slots tzdb fromiso partner date s (.ok [e]) =
          .ok slots ∧ mkTimeSlot partner date h0 ∈ slots) ∧
    (∀ be : Int,
      eventBusyInterval fromiso e = some (tz.localize date h0 + 60, be) →
      ∃ slots, get_available_slots tzdb fromiso partner date s (.ok [e]) =
          .ok slots ∧ mkTimeSlot partner date h0 ∈ slots) := by
  have hMono := localize_mono_of_gap tz date hGap
  refine ⟨?_, ?_, ?_⟩
  · intro hB
    unfold get_available_slots
    rw [htz]
    show Except.ok _ = _
    have hpt : ∀ h ∈ List.range' 9 8,
        (!(is_booked fromiso (tz.localize date h)
            (tz.localize date h + 60) [e])) = (h != h0) := by
      intro h hm
      have hrange : 9 ≤ h ∧ h < 17 := by simpa using List.mem_range'_1.1 hm
      have hbool : is_booked fromiso (tz.localize date h)
          (tz.localize date h + 60) [e] =
            decide (tz.localize date h < tz.localize date h0 + 60 ∧
              tz.localize date h + 60 > tz.localize date h0) := by
        simp [is_booked, hB]
      by_cases hh : h = h0
      · subst hh
        rw [hbool]
        simp
      · rw [hbool]
        have hfalse : ¬(tz.localize date h < tz.localize date h0 + 60 ∧
            tz.localize date h + 60 > tz.localize date h0) := by
          rcases Nat.lt_or_ge h h0 with hlt | hge
          · intro hcon
            have hstep := hGap h
            have hle : tz.localize date (h + 1) ≤ tz.localize date h0 :=
              hMono (h + 1) h0 (by omega)
            omega
          · have hgt : h0 < h := by omega
            intro hcon
            have hstep := hGap h0
            have hle : tz.localize date (h0 + 1) ≤ tz.localize date h :=
              hMono (h0 + 1) h (by omega)
            omega
        simp [hfalse, hh]
    rw [List.filter_congr hpt]
  · intro bs hB
    refine ⟨((List.range' 9 8).filter fun h =>
        !(is_booked fromiso (tz.localize date h)
            (tz.localize date h + 60) [e])).map (mkTimeSlot partner date),
      ?_, ?_⟩
    · unfold get_available_slots
      rw [htz]
    · refine List.mem_map.2 ⟨h0, ?_, rfl⟩
      refine List.mem_filter.2 ⟨List.mem_range'_1.2 ⟨h09, by omega⟩, ?_⟩
      simp [is_booked, hB]
  · intro be hB
    refine ⟨((List.range' 9 8).filter fun h =>
        !(is_booked fromiso (tz.localize date h)
            (tz.localize date h + 60) [e])).map (mkTimeSlot partner date),
      ?_, ?_⟩
    · unfold get_available_slots
      rw [htz]
    · refine List.mem_map.2 ⟨h0, ?_, rfl⟩
      refine List.mem_filter.2 ⟨List.mem_range'_1.2 ⟨h09, by omega⟩, ?_⟩
      simp [is_booked, hB]

/-- Witness for C3: the concrete busy interval `[780, 840)`, exactly equal
to the 13:00 candidate slot, removes exactly that slot. -/
theorem spec_C3_witness :
    get_available_slots tzdbEx fromisoEx examplePartner 0 "America/New_York"
        (.ok [eventEx]) =
      .ok (((List.range' 9 8).filter fun h => h != 13).map
        (mkTimeSlot examplePartner 0)) :=
  (spec_C3_boundary tzdbEx fromisoEx examplePartner 0 "America/New_York"
      tzFixed rfl (fun h => by simp only [tzFixed]; omega)
      eventEx 13 (by omega) (by omega)).1 rfl
